import Mathlib

/-!
Verification development for the keyword-based sentiment analysis service
(src/main.py and src/models.py).

Modelling conventions:
- Python floats are modelled as exact rationals. All score and confidence
  arithmetic in the source is short chains of additions, multiplications by
  decimal literals, min and max, and one rounding to three decimals; the
  rational semantics is the intended real-number reading of those formulas.
- The call random.uniform(0.4, 0.6) in the NEUTRAL branch of analyze is
  modelled by an explicit draw parameter; theorems about the neutral score
  assume the draw lies in the closed interval from 0.4 to 0.6, which is the
  guarantee of random.uniform.
- Python str.lower is modelled on ASCII letters, which covers every keyword
  of the default configuration.
- The Python dict sentiment_distribution is modelled as an association list
  in the insertion order of the source, which iterates the SentimentType
  enum in declaration order.
- Python round(x, 3) is modelled by rounding x * 1000 to the nearest
  integer; the half-way tie direction is immaterial to the stated claims,
  which carry a tolerance.
-/

/-- Lower-case a single character, as Python str.lower does on ASCII. -/
def charLower (c : Char) : Char :=
  if 'A' ≤ c ∧ c ≤ 'Z' then Char.ofNat (c.toNat + 32) else c

/-- Lower-case a string, as Python str.lower does on ASCII text. -/
def strLower (s : String) : String :=
  ⟨s.data.map charLower⟩

/-- Test whether the first list begins the second, elementwise. -/
def listStarts [BEq α] : List α → List α → Bool
  | [], _ => true
  | _ :: _, [] => false
  | a :: as, b :: bs => a == b && listStarts as bs

/-- Test whether the first list occurs contiguously inside the second. -/
def isSubList (needle : List α) [BEq α] : List α → Bool
  | [] => listStarts needle []
  | c :: t => listStarts needle (c :: t) || isSubList needle t

/-- Python substring containment: the expression word in s. -/
def strIn (word s : String) : Bool :=
  isSubList word.data s.data

/-- The SentimentType enum of src/models.py. -/
inductive SentimentType where
  | POSITIVE
  | NEGATIVE
  | NEUTRAL
deriving DecidableEq

/-- The string value of each SentimentType member in src/models.py. -/
def SentimentType.value : SentimentType → String
  | .POSITIVE => "positive"
  | .NEGATIVE => "negative"
  | .NEUTRAL => "neutral"

/-- The AnalyzerConfig model of src/models.py. -/
structure AnalyzerConfig where
  positive_keywords : List String
  negative_keywords : List String
  neutral_keywords : List String
  confidence_threshold : ℚ
  minimum_score : ℚ
  maximum_score : ℚ
deriving DecidableEq

/-- The default field values of AnalyzerConfig in src/models.py.  Note that
the negative keyword list of the source really does list the word
disappointing twice. -/
def defaultConfig : AnalyzerConfig where
  positive_keywords :=
    ["love", "amazing", "impressed", "quality", "great", "excellent",
     "wonderful", "outstanding", "fantastic", "awesome", "perfect"]
  negative_keywords :=
    ["disappointing", "not happy", "hope they improve", "bad", "terrible",
     "awful", "worst", "hate", "horrible", "disappointing"]
  neutral_keywords :=
    ["neutral", "mixed feelings", "okay", "average", "uncertain", "unsure"]
  confidence_threshold := 0.7
  minimum_score := 0.1
  maximum_score := 0.9

/-- The AnalysisResult dataclass of src/models.py. -/
structure AnalysisResult where
  sentiment : SentimentType
  score : ℚ
  confidence : ℚ
  keywords_found : List String
deriving DecidableEq

/-- The positive_matches list of KeywordBasedSentimentAnalyzer.analyze. -/
def positiveMatches (cfg : AnalyzerConfig) (statement : String) : List String :=
  cfg.positive_keywords.filter (fun word => strIn word (strLower statement))

/-- The negative_matches list of KeywordBasedSentimentAnalyzer.analyze. -/
def negativeMatches (cfg : AnalyzerConfig) (statement : String) : List String :=
  cfg.negative_keywords.filter (fun word => strIn word (strLower statement))

/-- The neutral_matches list of KeywordBasedSentimentAnalyzer.analyze. -/
def neutralMatches (cfg : AnalyzerConfig) (statement : String) : List String :=
  cfg.neutral_keywords.filter (fun word => strIn word (strLower statement))

/-- KeywordBasedSentimentAnalyzer.analyze of src/main.py.  The draw
parameter stands for the value of random.uniform(0.4, 0.6) consumed by the
NEUTRAL branch. -/
def analyze (cfg : AnalyzerConfig) (draw : ℚ) (statement : String) : AnalysisResult :=
  let positive_matches := positiveMatches cfg statement
  let negative_matches := negativeMatches cfg statement
  let neutral_matches := neutralMatches cfg statement
  let positive_count := positive_matches.length
  let negative_count := negative_matches.length
  let neutral_count := neutral_matches.length
  if positive_count > negative_count ∧ positive_count > neutral_count then
    { sentiment := .POSITIVE
      score := min cfg.maximum_score (0.6 + (positive_count : ℚ) * 0.1)
      confidence := min 0.95 (0.5 + (positive_count : ℚ) * 0.15)
      keywords_found := positive_matches }
  else if negative_count > positive_count ∧ negative_count > neutral_count then
    { sentiment := .NEGATIVE
      score := max cfg.minimum_score (0.4 - (negative_count : ℚ) * 0.1)
      confidence := min 0.95 (0.5 + (negative_count : ℚ) * 0.15)
      keywords_found := negative_matches }
  else
    { sentiment := .NEUTRAL
      score := draw
      confidence := 0.5 + (neutral_count : ℚ) * 0.1
      keywords_found := neutral_matches }

/-- The SentimentResult model of src/models.py, as built by
SentimentAnalysisService.analyze_statements. -/
structure SentimentResult where
  statement : String
  sentiment : SentimentType
  score : ℚ
  confidence : ℚ
  keywords_found : List String
deriving DecidableEq

/-- The InsightSummary model of src/models.py.  The Python dict
sentiment_distribution is an association list in insertion order. -/
structure InsightSummary where
  summary : String
  sentiment_distribution : List (String × Nat)
  average_score : ℚ
  total_statements : Nat
  recommendations : List String
deriving DecidableEq

/-- Rounding of q * 100 to one decimal digit of percent, as the Python
format specifier .1% does inside the summary f-strings. -/
def fmtPct (q : ℚ) : String :=
  toString (round (q * 1000) / 10) ++ "." ++ toString (round (q * 1000) % 10) ++ "%"

/-- Python round(x, 3): round to three decimal places. -/
def roundQ3 (q : ℚ) : ℚ :=
  ((round (q * 1000) : ℤ) : ℚ) / 1000

/-- The positive-trend summary sentence of AdvancedInsightGenerator.generate. -/
def posSummary (pos total : Nat) : String :=
  "Overwhelmingly positive sentiment detected (" ++ toString pos ++ "/" ++
    toString total ++ ", " ++ fmtPct ((pos : ℚ) / (total : ℚ)) ++
    "). Influencers are expressing high satisfaction and enthusiasm."

/-- The negative-trend summary sentence of AdvancedInsightGenerator.generate. -/
def negSummary (neg total : Nat) : String :=
  "Concerning negative sentiment trend (" ++ toString neg ++ "/" ++
    toString total ++ ", " ++ fmtPct ((neg : ℚ) / (total : ℚ)) ++
    "). Significant issues require immediate attention."

/-- The neutral summary sentence of AdvancedInsightGenerator.generate. -/
def neuSummary (neu total : Nat) : String :=
  "Neutral sentiment dominates (" ++ toString neu ++ "/" ++
    toString total ++ ", " ++ fmtPct ((neu : ℚ) / (total : ℚ)) ++
    "). Influencers are taking a wait-and-see approach."

/-- The mixed-sentiment summary sentence of AdvancedInsightGenerator.generate. -/
def mixedSummary : String :=
  "Mixed sentiments observed. Opinions are evenly divided among influencers with no clear majority."

/-- The confidence-coverage clause appended to every summary. -/
def confClause (q : ℚ) : String :=
  " Analysis confidence: " ++ fmtPct q ++ " of statements analyzed with high confidence."

/-- Remediation recommendation one of _generate_recommendations. -/
def recNegUrgent : String :=
  "Address negative feedback urgently to prevent reputation damage"

/-- Remediation recommendation two of _generate_recommendations. -/
def recSatisfaction : String :=
  "Implement customer satisfaction improvement initiatives"

/-- Amplification recommendation one of _generate_recommendations. -/
def recLeverage : String :=
  "Leverage positive sentiment for marketing campaigns"

/-- Amplification recommendation two of _generate_recommendations. -/
def recAmplify : String :=
  "Identify and amplify positive influencer voices"

/-- Engagement recommendation one of _generate_recommendations. -/
def recEngage : String :=
  "Engage neutral influencers with targeted content"

/-- Engagement recommendation two of _generate_recommendations. -/
def recValueProp : String :=
  "Provide more compelling value propositions"

/-- Critical-action recommendation of _generate_recommendations. -/
def recCritical : String :=
  "Critical: Overall sentiment is very low - immediate action required"

/-- Maintain-strategy recommendation of _generate_recommendations. -/
def recMaintain : String :=
  "Excellent: Maintain current strategies and expand successful initiatives"

/-- Data-sufficiency recommendation of _generate_recommendations. -/
def recMoreData : String :=
  "Consider gathering more data for better analysis confidence"

/-- AdvancedInsightGenerator._generate_recommendations of src/main.py.  The
Python list-append accumulation becomes a concatenation of gated blocks. -/
def generateRecommendations (pos neg neu total : Nat) (avg_score highConfFrac : ℚ) :
    List String :=
  (if neg > pos then [recNegUrgent, recSatisfaction] else []) ++
  (if (pos : ℚ) > (total : ℚ) * 0.6 then [recLeverage, recAmplify] else []) ++
  (if (neu : ℚ) > (total : ℚ) * 0.4 then [recEngage, recValueProp] else []) ++
  (if avg_score < 0.4 then [recCritical]
   else if avg_score > 0.7 then [recMaintain] else []) ++
  (if highConfFrac < 0.5 then [recMoreData] else [])

/-- AdvancedInsightGenerator.generate of src/main.py.  The counting loop of
the source becomes countP and sum over the input list; the distribution dict
keys appear in the SentimentType declaration order. -/
def generate (sentiments : List SentimentResult) : InsightSummary :=
  if sentiments = [] then
    { summary := "No statements to analyze."
      sentiment_distribution := []
      average_score := 0
      total_statements := 0
      recommendations := [] }
  else
    let total := sentiments.length
    let pos := sentiments.countP (fun r => decide (r.sentiment = SentimentType.POSITIVE))
    let neg := sentiments.countP (fun r => decide (r.sentiment = SentimentType.NEGATIVE))
    let neu := sentiments.countP (fun r => decide (r.sentiment = SentimentType.NEUTRAL))
    let total_score := (sentiments.map (fun r => r.score)).sum
    let high_confidence_count := sentiments.countP (fun r => decide ((0.7 : ℚ) < r.confidence))
    let average_score := total_score / (total : ℚ)
    let highConfFrac := (high_confidence_count : ℚ) / (total : ℚ)
    let summary :=
      (if pos > neg ∧ pos > neu then posSummary pos total
       else if neg > pos ∧ neg > neu then negSummary neg total
       else if neu > pos ∧ neu > neg then neuSummary neu total
       else mixedSummary) ++ confClause highConfFrac
    { summary := summary
      sentiment_distribution := [("positive", pos), ("negative", neg), ("neutral", neu)]
      average_score := roundQ3 average_score
      total_statements := total
      recommendations := generateRecommendations pos neg neu total average_score highConfFrac }

/-- Packaging of one AnalysisResult into a SentimentResult, as done inside
SentimentAnalysisService.analyze_statements. -/
def toSentimentResult (stmt : String) (a : AnalysisResult) : SentimentResult :=
  { statement := stmt
    sentiment := a.sentiment
    score := a.score
    confidence := a.confidence
    keywords_found := a.keywords_found }

/-- The per-statement loop of SentimentAnalysisService.analyze_statements,
threading the index used to look up each call's random draw. -/
def analyzeStatementsFrom (cfg : AnalyzerConfig) (draws : Nat → ℚ) (i : Nat) :
    List String → List SentimentResult
  | [] => []
  | s :: rest =>
      toSentimentResult s (analyze cfg (draws i) s) ::
        analyzeStatementsFrom cfg draws (i + 1) rest

/-- SentimentAnalysisService.analyze_statements of src/main.py; the function
draws supplies the value of random.uniform consumed by each analyze call. -/
def analyzeStatements (cfg : AnalyzerConfig) (draws : Nat → ℚ)
    (stmts : List String) : List SentimentResult :=
  analyzeStatementsFrom cfg draws 0 stmts

/-- The bulk_analysis endpoint body of src/main.py for a non-empty request:
generate_insights over a first analysis run, then, when include_metadata is
set, a second analysis run whose high-confidence count is reported in one
appended recommendation.  The two runs consume independent draws. -/
def bulkAnalysis (cfg : AnalyzerConfig) (draws1 draws2 : Nat → ℚ)
    (stmts : List String) (include_metadata : Bool) : InsightSummary :=
  let insights := generate (analyzeStatements cfg draws1 stmts)
  if include_metadata then
    let sentiments := analyzeStatements cfg draws2 stmts
    let high_conf_count := sentiments.countP (fun s => decide ((0.7 : ℚ) < s.confidence))
    { insights with
        recommendations := insights.recommendations ++
          ["Processing metadata: " ++ toString high_conf_count ++ "/" ++
            toString sentiments.length ++ " high-confidence results"] }
  else insights

/-- Number of POSITIVE results in a list, as counted by the distribution
loop of AdvancedInsightGenerator.generate. -/
def posCount (rs : List SentimentResult) : Nat :=
  rs.countP (fun r => decide (r.sentiment = SentimentType.POSITIVE))

/-- Number of NEGATIVE results in a list, as counted by the distribution
loop of AdvancedInsightGenerator.generate. -/
def negCount (rs : List SentimentResult) : Nat :=
  rs.countP (fun r => decide (r.sentiment = SentimentType.NEGATIVE))

/-- Number of NEUTRAL results in a list, as counted by the distribution
loop of AdvancedInsightGenerator.generate. -/
def neuCount (rs : List SentimentResult) : Nat :=
  rs.countP (fun r => decide (r.sentiment = SentimentType.NEUTRAL))

/-- Number of results whose confidence exceeds 0.7, as counted by
AdvancedInsightGenerator.generate. -/
def highConfCount (rs : List SentimentResult) : Nat :=
  rs.countP (fun r => decide ((0.7 : ℚ) < r.confidence))

/-- Arithmetic mean of the scores of a list of results. -/
def meanScore (rs : List SentimentResult) : ℚ :=
  ((rs.map (fun r => r.score)).sum) / (rs.length : ℚ)

/-- Fraction of results whose confidence exceeds 0.7, the confidence_ratio
of AdvancedInsightGenerator.generate. -/
def highConfShare (rs : List SentimentResult) : ℚ :=
  (highConfCount rs : ℚ) / (rs.length : ℚ)

/-- Fixed POSITIVE sample result used to instantiate aggregate theorems. -/
def samplePos : SentimentResult where
  statement := "p"
  sentiment := .POSITIVE
  score := 0.7
  confidence := 0.8
  keywords_found := []

/-- Fixed NEGATIVE sample result used to instantiate aggregate theorems. -/
def sampleNeg : SentimentResult where
  statement := "n"
  sentiment := .NEGATIVE
  score := 0.3
  confidence := 0.8
  keywords_found := []

/-- Fixed NEUTRAL sample result used to instantiate aggregate theorems. -/
def sampleNeu : SentimentResult where
  statement := "u"
  sentiment := .NEUTRAL
  score := 0.5
  confidence := 0.5
  keywords_found := []

/-- C1: for every statement string and analyzer config, analyze classifies
by strict majority in both comparisons: with p, n, u the match counts of
the positive, negative and neutral keyword lists on the lower-cased
statement, p greater than both n and u yields a POSITIVE result with
score min(maximum_score, 0.6 + 0.1p), confidence min(0.95, 0.5 + 0.15p)
and the positive matches as keywords; otherwise n greater than both p and
u yields the analogous NEGATIVE result; in all remaining cases, ties
included, the result is NEUTRAL with confidence 0.5 + 0.1u and the neutral
matches as keywords. -/
theorem analyze_strict_majority_classification (cfg : AnalyzerConfig) (draw : ℚ)
    (stmt : String) :
    ((positiveMatches cfg stmt).length > (negativeMatches cfg stmt).length ∧
        (positiveMatches cfg stmt).length > (neutralMatches cfg stmt).length →
      analyze cfg draw stmt =
        { sentiment := SentimentType.POSITIVE
          score := min cfg.maximum_score (0.6 + 0.1 * ((positiveMatches cfg stmt).length : ℚ))
          confidence := min 0.95 (0.5 + 0.15 * ((positiveMatches cfg stmt).length : ℚ))
          keywords_found := positiveMatches cfg stmt }) ∧
    ((negativeMatches cfg stmt).length > (positiveMatches cfg stmt).length ∧
        (negativeMatches cfg stmt).length > (neutralMatches cfg stmt).length →
      analyze cfg draw stmt =
        { sentiment := SentimentType.NEGATIVE
          score := max cfg.minimum_score (0.4 - 0.1 * ((negativeMatches cfg stmt).length : ℚ))
          confidence := min 0.95 (0.5 + 0.15 * ((negativeMatches cfg stmt).length : ℚ))
          keywords_found := negativeMatches cfg stmt }) ∧
    (¬((positiveMatches cfg stmt).length > (negativeMatches cfg stmt).length ∧
        (positiveMatches cfg stmt).length > (neutralMatches cfg stmt).length) →
     ¬((negativeMatches cfg stmt).length > (positiveMatches cfg stmt).length ∧
        (negativeMatches cfg stmt).length > (neutralMatches cfg stmt).length) →
      (analyze cfg draw stmt).sentiment = SentimentType.NEUTRAL ∧
      (analyze cfg draw stmt).confidence = 0.5 + 0.1 * ((neutralMatches cfg stmt).length : ℚ) ∧
      (analyze cfg draw stmt).keywords_found = neutralMatches cfg stmt) := by
  refine ⟨fun h => ?_, fun h => ?_, fun h1 h2 => ?_⟩
  · simp only [analyze]
    rw [if_pos h]
    simp [mul_comm]
  · simp only [analyze]
    rw [if_neg (fun hc => absurd h.1 (Nat.lt_asymm hc.1)), if_pos h]
    simp [mul_comm]
  · simp only [analyze]
    rw [if_neg h1, if_neg h2]
    simp [mul_comm]

/-- Witness for C1 at a concrete positively classified statement. -/
theorem analyze_strict_majority_classification_witness :
    analyze defaultConfig (1/2) "i love it" =
      { sentiment := SentimentType.POSITIVE
        score := min defaultConfig.maximum_score
          (0.6 + 0.1 * ((positiveMatches defaultConfig "i love it").length : ℚ))
        confidence := min 0.95
          (0.5 + 0.15 * ((positiveMatches defaultConfig "i love it").length : ℚ))
        keywords_found := positiveMatches defaultConfig "i love it" } :=
  (analyze_strict_majority_classification defaultConfig (1/2) "i love it").1 (by decide)

/-- C2 (counterexample): with the default config, a statement matching all
six neutral keywords takes the NEUTRAL branch and receives confidence
0.5 + 0.1 * 6 = 1.1, which exceeds 1, so the claimed interval [0, 1] fails. -/
theorem analyze_confidence_exceeds_one :
    1 < (analyze defaultConfig (1/2)
        "neutral mixed feelings okay average uncertain unsure").confidence := by
  have h1 : positiveMatches defaultConfig
      "neutral mixed feelings okay average uncertain unsure" = [] := by decide
  have h2 : negativeMatches defaultConfig
      "neutral mixed feelings okay average uncertain unsure" = [] := by decide
  have h3 : neutralMatches defaultConfig
      "neutral mixed feelings okay average uncertain unsure" =
      ["neutral", "mixed feelings", "okay", "average", "uncertain", "unsure"] := by decide
  simp [analyze, h1, h2, h3]
  norm_num

/-- C2 (amended): the confidence lies in [0, 1] for every statement and
config whose neutral keyword match count is at most five; the POSITIVE and
NEGATIVE branches are capped at 0.95 unconditionally, while the NEUTRAL
branch yields 0.5 + 0.1u, which stays within 1 exactly when u is at most 5. -/
theorem analyze_confidence_unit_interval_bounded (cfg : AnalyzerConfig) (draw : ℚ)
    (stmt : String) (h : (neutralMatches cfg stmt).length ≤ 5) :
    0 ≤ (analyze cfg draw stmt).confidence ∧ (analyze cfg draw stmt).confidence ≤ 1 := by
  have hu : ((neutralMatches cfg stmt).length : ℚ) ≤ 5 := by exact_mod_cast h
  have hp : (0 : ℚ) ≤ ((positiveMatches cfg stmt).length : ℚ) := Nat.cast_nonneg _
  have hn : (0 : ℚ) ≤ ((negativeMatches cfg stmt).length : ℚ) := Nat.cast_nonneg _
  have hv : (0 : ℚ) ≤ ((neutralMatches cfg stmt).length : ℚ) := Nat.cast_nonneg _
  simp only [analyze]
  split_ifs <;> simp only <;> constructor
  · exact le_min (by norm_num) (by linarith)
  · exact (min_le_left _ _).trans (by norm_num)
  · exact le_min (by norm_num) (by linarith)
  · exact (min_le_left _ _).trans (by norm_num)
  · linarith
  · linarith

/-- Witness for the amended C2 at a statement with no neutral matches. -/
theorem analyze_confidence_unit_interval_bounded_witness :
    0 ≤ (analyze defaultConfig (1/2) "hello").confidence ∧
    (analyze defaultConfig (1/2) "hello").confidence ≤ 1 :=
  analyze_confidence_unit_interval_bounded defaultConfig (1/2) "hello" (by decide)

/-- C7: under the default config, and with the neutral draw inside the
interval [0.4, 0.6] guaranteed by random.uniform, every score returned by
analyze lies in [minimum_score, maximum_score] = [0.1, 0.9]. -/
theorem analyze_score_within_bounds (stmt : String) (draw : ℚ)
    (h1 : 0.4 ≤ draw) (h2 : draw ≤ 0.6) :
    0.1 ≤ (analyze defaultConfig draw stmt).score ∧
    (analyze defaultConfig draw stmt).score ≤ 0.9 := by
  have hn : (0 : ℚ) ≤ ((negativeMatches defaultConfig stmt).length : ℚ) := Nat.cast_nonneg _
  simp only [analyze]
  split_ifs with hp hq <;> simp only <;> constructor
  · have hp1 : 1 ≤ (positiveMatches defaultConfig stmt).length :=
      Nat.lt_of_le_of_lt (Nat.zero_le _) hp.1
    have hp1q : (1 : ℚ) ≤ ((positiveMatches defaultConfig stmt).length : ℚ) := by
      exact_mod_cast hp1
    exact le_min (by norm_num [defaultConfig]) (by linarith)
  · exact (min_le_left _ _).trans (by norm_num [defaultConfig])
  · exact (le_max_left _ _).trans_eq' (by norm_num [defaultConfig])
  · exact max_le (by norm_num [defaultConfig]) (by linarith)
  · linarith
  · linarith

/-- Witness for C7 at a concrete statement and draw. -/
theorem analyze_score_within_bounds_witness :
    0.1 ≤ (analyze defaultConfig (1/2) "no keywords here").score ∧
    (analyze defaultConfig (1/2) "no keywords here").score ≤ 0.9 :=
  analyze_score_within_bounds "no keywords here" (1/2) (by norm_num) (by norm_num)

/-- C10: under the default config, and with the neutral draw inside
[0.4, 0.6], the three labels occupy pairwise disjoint score ranges: a
POSITIVE result scores in [0.7, 0.9], a NEGATIVE result in [0.1, 0.3] and a
NEUTRAL result in [0.4, 0.6], so the label is recoverable from the score. -/
theorem sentiment_recoverable_from_score (stmt : String) (draw : ℚ)
    (h1 : 0.4 ≤ draw) (h2 : draw ≤ 0.6) :
    ((analyze defaultConfig draw stmt).sentiment = SentimentType.POSITIVE →
      0.7 ≤ (analyze defaultConfig draw stmt).score ∧
      (analyze defaultConfig draw stmt).score ≤ 0.9) ∧
    ((analyze defaultConfig draw stmt).sentiment = SentimentType.NEGATIVE →
      0.1 ≤ (analyze defaultConfig draw stmt).score ∧
      (analyze defaultConfig draw stmt).score ≤ 0.3) ∧
    ((analyze defaultConfig draw stmt).sentiment = SentimentType.NEUTRAL →
      0.4 ≤ (analyze defaultConfig draw stmt).score ∧
      (analyze defaultConfig draw stmt).score ≤ 0.6) := by
  simp only [analyze]
  split_ifs with hp hq
  · refine ⟨fun _ => ?_, fun hs => by simp at hs, fun hs => by simp at hs⟩
    have hp1 : 1 ≤ (positiveMatches defaultConfig stmt).length :=
      Nat.lt_of_le_of_lt (Nat.zero_le _) hp.1
    have hp1q : (1 : ℚ) ≤ ((positiveMatches defaultConfig stmt).length : ℚ) := by
      exact_mod_cast hp1
    constructor
    · exact le_min (by norm_num [defaultConfig]) (by linarith)
    · exact (min_le_left _ _).trans (by norm_num [defaultConfig])
  · refine ⟨fun hs => by simp at hs, fun _ => ?_, fun hs => by simp at hs⟩
    have hq1 : 1 ≤ (negativeMatches defaultConfig stmt).length :=
      Nat.lt_of_le_of_lt (Nat.zero_le _) hq.1
    have hq1q : (1 : ℚ) ≤ ((negativeMatches defaultConfig stmt).length : ℚ) := by
      exact_mod_cast hq1
    constructor
    · exact le_max_left _ _ |>.trans_eq' (by norm_num [defaultConfig])
    · exact max_le (by norm_num [defaultConfig]) (by linarith)
  · exact ⟨fun hs => by simp at hs, fun hs => by simp at hs, fun _ => ⟨h1, h2⟩⟩

/-- Witness for C10 at a concrete statement and draw. -/
theorem sentiment_recoverable_from_score_witness :
    ((analyze defaultConfig (1/2) "i love it").sentiment = SentimentType.POSITIVE →
      0.7 ≤ (analyze defaultConfig (1/2) "i love it").score ∧
      (analyze defaultConfig (1/2) "i love it").score ≤ 0.9) ∧
    ((analyze defaultConfig (1/2) "i love it").sentiment = SentimentType.NEGATIVE →
      0.1 ≤ (analyze defaultConfig (1/2) "i love it").score ∧
      (analyze defaultConfig (1/2) "i love it").score ≤ 0.3) ∧
    ((analyze defaultConfig (1/2) "i love it").sentiment = SentimentType.NEUTRAL →
      0.4 ≤ (analyze defaultConfig (1/2) "i love it").score ∧
      (analyze defaultConfig (1/2) "i love it").score ≤ 0.6) :=
  sentiment_recoverable_from_score "i love it" (1/2) (by norm_num) (by norm_num)

/-- C9: the default negative keyword list contains the string disappointing
twice, so any statement whose lower-cased text contains it gets two
negative matches; when the NEGATIVE branch is taken the keyword is listed
twice in keywords_found, and a statement matching nothing else yields the
NEGATIVE result with score 0.2 and confidence 0.8. -/
theorem negative_keyword_disappointing_counted_twice :
    (defaultConfig.negative_keywords.count "disappointing" = 2) ∧
    (∀ (stmt : String) (draw : ℚ), strIn "disappointing" (strLower stmt) = true →
      (negativeMatches defaultConfig stmt).count "disappointing" = 2 ∧
      ((analyze defaultConfig draw stmt).sentiment = SentimentType.NEGATIVE →
        (analyze defaultConfig draw stmt).keywords_found.count "disappointing" = 2)) ∧
    (∀ draw : ℚ, analyze defaultConfig draw "The recent update was disappointing." =
      { sentiment := SentimentType.NEGATIVE
        score := 0.2
        confidence := 0.8
        keywords_found := ["disappointing", "disappointing"] }) := by
  have hbase : defaultConfig.negative_keywords.count "disappointing" = 2 := by decide
  refine ⟨hbase, fun stmt draw h => ?_, fun draw => ?_⟩
  · have hcnt : (negativeMatches defaultConfig stmt).count "disappointing" = 2 := by
      rw [negativeMatches, List.count_filter, hbase]
      exact h
    refine ⟨hcnt, fun hs => ?_⟩
    simp only [analyze] at hs ⊢
    split_ifs at hs ⊢ with h1 h2
    exact hcnt
  · have h1 : positiveMatches defaultConfig "The recent update was disappointing." = [] := by
      decide
    have h2 : negativeMatches defaultConfig "The recent update was disappointing." =
        ["disappointing", "disappointing"] := by decide
    have h3 : neutralMatches defaultConfig "The recent update was disappointing." = [] := by
      decide
    simp [analyze, h1, h2, h3]
    constructor
    · rw [max_eq_right] <;> norm_num [defaultConfig]
    · rw [min_eq_right] <;> norm_num

/-- Witness for C9 at a concrete statement containing disappointing. -/
theorem negative_keyword_disappointing_counted_twice_witness :
    (negativeMatches defaultConfig "The recent update was disappointing.").count
      "disappointing" = 2 :=
  ((negative_keyword_disappointing_counted_twice.2.1
    "The recent update was disappointing." 0) (by decide)).1

/-- Each result has exactly one sentiment label, so the three per-label
counts partition the length of the list. -/
theorem posCount_add_negCount_add_neuCount (rs : List SentimentResult) :
    posCount rs + negCount rs + neuCount rs = rs.length := by
  simp only [posCount, negCount, neuCount]
  induction rs with
  | nil => rfl
  | cons r t ih =>
      simp only [List.countP_cons, List.length_cons]
      cases h : r.sentiment <;> simp [h] <;> omega

/-- Rounding to three decimals moves a rational by at most one half of a
thousandth, hence by at most one thousandth. -/
theorem roundQ3_close (q : ℚ) : |roundQ3 q - q| ≤ 1 / 1000 := by
  have h : |q * 1000 - ((round (q * 1000) : ℤ) : ℚ)| ≤ 1 / 2 := abs_sub_round (q * 1000)
  rw [abs_sub_comm] at h
  have hrw : roundQ3 q - q = (((round (q * 1000) : ℤ) : ℚ) - q * 1000) / 1000 := by
    rw [roundQ3]; ring
  rw [hrw, abs_div]
  rw [show |(1000 : ℚ)| = 1000 by norm_num]
  rw [div_le_div_iff₀ (by norm_num) (by norm_num)]
  nlinarith [h]

/-- C3: for every list of analysis results, empty included, the values of
the sentiment_distribution returned by generate sum to total_statements. -/
theorem sentiment_distribution_sums_to_total (rs : List SentimentResult) :
    (((generate rs).sentiment_distribution).map Prod.snd).sum =
      (generate rs).total_statements := by
  by_cases h : rs = []
  · subst h; rfl
  · simp only [generate, if_neg h, List.map_cons, List.map_nil, List.sum_cons,
      List.sum_nil]
    have := posCount_add_negCount_add_neuCount rs
    simp only [posCount, negCount, neuCount] at this
    omega

/-- C4: for a non-empty input, generate reports as average_score the
arithmetic mean of the scores rounded to three decimal places, which is
within one thousandth of the exact mean; for the empty input it reports 0. -/
theorem average_score_is_rounded_mean (rs : List SentimentResult) :
    (rs = [] → (generate rs).average_score = 0) ∧
    (rs ≠ [] →
      (generate rs).average_score = roundQ3 (meanScore rs) ∧
      |(generate rs).average_score - meanScore rs| ≤ 1 / 1000) := by
  constructor
  · intro h; subst h; rfl
  · intro h
    have heq : (generate rs).average_score = roundQ3 (meanScore rs) := by
      simp only [generate, if_neg h, meanScore]
    exact ⟨heq, heq ▸ roundQ3_close (meanScore rs)⟩

/-- Witness for C4 on a concrete one-element list. -/
theorem average_score_is_rounded_mean_witness :
    (generate [samplePos]).average_score = roundQ3 (meanScore [samplePos]) ∧
    |(generate [samplePos]).average_score - meanScore [samplePos]| ≤ 1 / 1000 :=
  (average_score_is_rounded_mean [samplePos]).2 (by simp)

/-- C5: for every non-empty input, generate picks the summary sentence by
strict maximum over the three per-label counts, embedding the winning count
with the total and its percentage, falls back to the generic mixed sentence
on any tie, and appends to every summary the clause reporting the
percentage of results whose confidence exceeds 0.7. -/
theorem summary_sentence_strict_majority (rs : List SentimentResult) (h : rs ≠ []) :
    (posCount rs > negCount rs ∧ posCount rs > neuCount rs →
      (generate rs).summary =
        posSummary (posCount rs) rs.length ++ confClause (highConfShare rs)) ∧
    (negCount rs > posCount rs ∧ negCount rs > neuCount rs →
      (generate rs).summary =
        negSummary (negCount rs) rs.length ++ confClause (highConfShare rs)) ∧
    (neuCount rs > posCount rs ∧ neuCount rs > negCount rs →
      (generate rs).summary =
        neuSummary (neuCount rs) rs.length ++ confClause (highConfShare rs)) ∧
    (¬(posCount rs > negCount rs ∧ posCount rs > neuCount rs) →
     ¬(negCount rs > posCount rs ∧ negCount rs > neuCount rs) →
     ¬(neuCount rs > posCount rs ∧ neuCount rs > negCount rs) →
      (generate rs).summary = mixedSummary ++ confClause (highConfShare rs)) := by
  simp only [posCount, negCount, neuCount, highConfShare, highConfCount]
  refine ⟨fun h1 => ?_, fun h2 => ?_, fun h3 => ?_, fun h1 h2 h3 => ?_⟩
  · simp only [generate, if_neg h]
    rw [if_pos h1]
  · simp only [generate, if_neg h]
    rw [if_neg (fun hc => absurd h2.1 (Nat.lt_asymm hc.1)), if_pos h2]
  · simp only [generate, if_neg h]
    rw [if_neg (fun hc => absurd hc.2 (Nat.lt_asymm h3.1)),
      if_neg (fun hc => absurd hc.2 (Nat.lt_asymm h3.2)), if_pos h3]
  · simp only [generate, if_neg h]
    rw [if_neg h1, if_neg h2, if_neg h3]

/-- Witness for C5 on a list with a strict positive majority. -/
theorem summary_sentence_strict_majority_witness :
    (generate [samplePos, samplePos, sampleNeg]).summary =
      posSummary (posCount [samplePos, samplePos, sampleNeg])
        ([samplePos, samplePos, sampleNeg] : List SentimentResult).length ++
      confClause (highConfShare [samplePos, samplePos, sampleNeg]) :=
  (summary_sentence_strict_majority [samplePos, samplePos, sampleNeg]
    (by simp)).1 (by decide)

/-- C6: for every non-empty input, the recommendations returned by generate
are exactly the condition-gated blocks in the fixed source order:
remediation pair when negatives outnumber positives, amplification pair
when positives exceed sixty percent of the total, engagement pair when
neutrals exceed forty percent, then the critical-action line when the mean
score is below 0.4 or else the maintain-strategy line when it is above 0.7,
then the data-sufficiency line when under half of the results are
high-confidence; the list is empty when no condition fires. -/
theorem recommendations_exact_conditions (rs : List SentimentResult) (h : rs ≠ []) :
    (generate rs).recommendations =
      (if negCount rs > posCount rs then [recNegUrgent, recSatisfaction] else []) ++
      (if (posCount rs : ℚ) > 0.6 * (rs.length : ℚ) then [recLeverage, recAmplify] else []) ++
      (if (neuCount rs : ℚ) > 0.4 * (rs.length : ℚ) then [recEngage, recValueProp] else []) ++
      (if meanScore rs < 0.4 then [recCritical]
       else if meanScore rs > 0.7 then [recMaintain] else []) ++
      (if highConfShare rs < 0.5 then [recMoreData] else []) := by
  simp only [generate, if_neg h, generateRecommendations, posCount, negCount, neuCount,
    meanScore, highConfShare, highConfCount, mul_comm]

/-- Witness for C6 on a concrete one-element negative list. -/
theorem recommendations_exact_conditions_witness :
    (generate [sampleNeg]).recommendations =
      (if negCount [sampleNeg] > posCount [sampleNeg]
        then [recNegUrgent, recSatisfaction] else []) ++
      (if (posCount [sampleNeg] : ℚ) > 0.6 * (([sampleNeg] : List SentimentResult).length : ℚ)
        then [recLeverage, recAmplify] else []) ++
      (if (neuCount [sampleNeg] : ℚ) > 0.4 * (([sampleNeg] : List SentimentResult).length : ℚ)
        then [recEngage, recValueProp] else []) ++
      (if meanScore [sampleNeg] < 0.4 then [recCritical]
       else if meanScore [sampleNeg] > 0.7 then [recMaintain] else []) ++
      (if highConfShare [sampleNeg] < 0.5 then [recMoreData] else []) :=
  recommendations_exact_conditions [sampleNeg] (by simp)

/-- The confidence assigned by analyze never depends on the random draw:
the draw only enters the NEUTRAL score. -/
theorem analyze_confidence_draw_free (cfg : AnalyzerConfig) (d1 d2 : ℚ) (s : String) :
    (analyze cfg d1 s).confidence = (analyze cfg d2 s).confidence := by
  simp only [analyze]
  split_ifs <;> rfl

/-- The analysis loop returns one result per statement. -/
theorem analyzeStatementsFrom_length (cfg : AnalyzerConfig) (draws : Nat → ℚ)
    (i : Nat) (stmts : List String) :
    (analyzeStatementsFrom cfg draws i stmts).length = stmts.length := by
  induction stmts generalizing i with
  | nil => rfl
  | cons s rest ih => simp [analyzeStatementsFrom, ih]

/-- The high-confidence count of an analysis run does not depend on the
draws consumed, nor on the index offset into them. -/
theorem analyzeStatementsFrom_highConfCount (cfg : AnalyzerConfig)
    (d1 d2 : Nat → ℚ) (i j : Nat) (stmts : List String) :
    (analyzeStatementsFrom cfg d1 i stmts).countP
        (fun s => decide ((0.7 : ℚ) < s.confidence)) =
      (analyzeStatementsFrom cfg d2 j stmts).countP
        (fun s => decide ((0.7 : ℚ) < s.confidence)) := by
  induction stmts generalizing i j with
  | nil => rfl
  | cons s rest ih =>
      simp only [analyzeStatementsFrom, List.countP_cons, toSentimentResult]
      rw [ih (i + 1) (j + 1), analyze_confidence_draw_free cfg (d1 i) (d2 j) s]

/-- C8: for every non-empty statement list and any pair of draw sequences,
bulk analysis with include_metadata set returns the insight summary of the
statements with exactly one extra recommendation appended at the end, and
that string reports k over n high-confidence results, where k counts the
results whose confidence exceeds 0.7 and n is the number of statements. -/
theorem bulk_analysis_metadata_append (cfg : AnalyzerConfig)
    (draws1 draws2 : Nat → ℚ) (stmts : List String) (h : stmts ≠ []) :
    bulkAnalysis cfg draws1 draws2 stmts true =
      { generate (analyzeStatements cfg draws1 stmts) with
          recommendations :=
            (generate (analyzeStatements cfg draws1 stmts)).recommendations ++
              ["Processing metadata: " ++
                toString ((analyzeStatements cfg draws1 stmts).countP
                  (fun s => decide ((0.7 : ℚ) < s.confidence))) ++ "/" ++
                toString stmts.length ++ " high-confidence results"] } := by
  simp only [bulkAnalysis, if_pos, analyzeStatements]
  rw [analyzeStatementsFrom_length cfg draws2 0 stmts,
    analyzeStatementsFrom_highConfCount cfg draws2 draws1 0 0 stmts]

/-- Witness for C8 on a concrete one-statement request. -/
theorem bulk_analysis_metadata_append_witness :
    bulkAnalysis defaultConfig (fun _ => 1/2) (fun _ => 1/2) ["i love it"] true =
      { generate (analyzeStatements defaultConfig (fun _ => 1/2) ["i love it"]) with
          recommendations :=
            (generate (analyzeStatements defaultConfig (fun _ => 1/2)
                ["i love it"])).recommendations ++
              ["Processing metadata: " ++
                toString ((analyzeStatements defaultConfig (fun _ => 1/2)
                  ["i love it"]).countP
                  (fun s => decide ((0.7 : ℚ) < s.confidence))) ++ "/" ++
                toString (["i love it"] : List String).length ++
                " high-confidence results"] } :=
  bulk_analysis_metadata_append defaultConfig (fun _ => 1/2) (fun _ => 1/2)
    ["i love it"] (by simp)
